import Mathlib

/-!
Shallow embedding of the résumé-doctor pipeline (resume_parser.py,
ai_advisor.py, app.py).  External black boxes (pypdf's PdfReader, the
LLM HTTP client, json.loads) are modelled as explicit outcome
parameters: `Except String α` stands for "returned α or raised an
exception with message".  Python dynamic values are modelled by `PyVal`.
-/

/-- Model of a dynamic Python value as it occurs in this program:
None, strings, ints, lists and string-keyed dicts. -/
inductive PyVal where
  | none
  | str (s : String)
  | int (n : Int)
  | list (xs : List PyVal)
  | dict (kvs : List (String × PyVal))

/-- Python whitespace test for str.strip(), restricted to the ASCII
whitespace characters (the only ones occurring in this program). -/
def isPySpace (c : Char) : Bool :=
  c == ' ' || c == '\t' || c == '\n' || c == '\r' || c == '\x0b' || c == '\x0c'

/-- Model of Python str.strip(): drop whitespace from both ends. -/
def pyStrip (s : String) : String :=
  String.mk (((s.data.dropWhile isPySpace).reverse.dropWhile isPySpace).reverse)

/-- Model of Python dict lookup d[k] as Option (first binding wins;
dict literals in this program have distinct keys). -/
def dict_find (kvs : List (String × PyVal)) (k : String) : Option PyVal :=
  match kvs.find? (fun kv => kv.fst == k) with
  | Option.some kv => Option.some kv.snd
  | Option.none => Option.none

/-- Model of Python d.get(k, dflt). -/
def dict_get (kvs : List (String × PyVal)) (k : String) (dflt : PyVal) : PyVal :=
  match dict_find kvs k with
  | Option.some v => v
  | Option.none => dflt

/-- Key lookup on a PyVal that is a dict (None on other shapes). -/
def PyVal.lookup : PyVal → String → Option PyVal
  | PyVal.dict kvs, k => dict_find kvs k
  | _, _ => Option.none

/-- Python isinstance(v, dict). -/
def PyVal.isDict : PyVal → Bool
  | PyVal.dict _ => true
  | _ => false

/-- The integer under key "score" of a dict-shaped value, if any. -/
def scoreInt (v : PyVal) : Option Int :=
  match v.lookup "score" with
  | Option.some (PyVal.int n) => Option.some n
  | _ => Option.none

/-- ai_advisor.clean_ai_response: on a falsy (empty) input return "";
otherwise remove the Markdown fence markers and strip. -/
def clean_ai_response (raw_response : String) : String :=
  if raw_response = "" then ""
  else pyStrip ((raw_response.replace "```json" "").replace "```" "")

/-- ai_advisor.analyze_resume.  The chat-completion call is the black
box `backend` (raised message, or returned raw content string);
json.loads is the black box `parse` (Option.none models a raised
JSONDecodeError).  The whole body sits in one try/except that returns
None, so the function itself never raises. -/
def analyze_resume (parse : String → Option PyVal)
    (backend : Except String String) : PyVal :=
  match backend with
  | Except.error _ => PyVal.none
  | Except.ok raw =>
      match parse (clean_ai_response raw) with
      | Option.some v => v
      | Option.none => PyVal.none

/-- The degraded dict built in app._ai_analyze's except branch
(score 0, fixed summary, error = str(e), two fixed suggestions). -/
def degraded_result (e : String) : PyVal :=
  PyVal.dict
    [("score", PyVal.int 0),
     ("summary", PyVal.str "AI 诊断模块当前不可用（调用失败）。"),
     ("error", PyVal.str e),
     ("suggestions", PyVal.list
        [PyVal.dict [("advice", PyVal.str "请检查 .env 是否配置 DEEPSEEK_API_KEY"),
                     ("evidence", PyVal.str "环境变量缺失会导致调用失败")],
         PyVal.dict [("advice", PyVal.str "确认 openai/python-dotenv 版本与代码兼容"),
                     ("evidence", PyVal.str "依赖版本不一致可能导致 API 调用异常")]]),
     ("matched_jobs", PyVal.list [])]

/-- The mock dict returned at the bottom of app._ai_analyze. -/
def mock_result : PyVal :=
  PyVal.dict
    [("score", PyVal.int 82),
     ("score_rationale", PyVal.str "基础分 70；内容结构清晰 +8；缺少量化成果 - - -（示例 mock）。"),
     ("summary", PyVal.str "这是一个可访问的 Demo 结果：核心流程可跑通，但 AI 诊断尚未接通或不可用。"),
     ("suggestions", PyVal.list
        [PyVal.dict [("advice", PyVal.str "为每段经历补齐量化指标（如性能提升、成本降低）"),
                     ("evidence", PyVal.str "当前描述偏职责，缺少结果数据")],
         PyVal.dict [("advice", PyVal.str "增加作品集/GitHub 链接与项目截图"),
                     ("evidence", PyVal.str "背书信息不足")]]),
     ("matched_jobs", PyVal.list
        [PyVal.str "后端开发", PyVal.str "全栈开发", PyVal.str "数据开发"])]

/-- app._ai_analyze around the call to ai_advisor.analyze_resume
(assuming the module is importable, as it is in this repository):
`call` is the outcome of that call — a raised message, or the returned
Python value.  A dict is passed through; an exception produces the
degraded dict; anything else (None included) falls through to the
mock. -/
def ai_analyze_wrapper (call : Except String PyVal) : PyVal :=
  match call with
  | Except.error e => degraded_result e
  | Except.ok v => if v.isDict then v else mock_result

/-- The composed diagnose pipeline app._ai_analyze ∘
ai_advisor.analyze_resume.  Since analyze_resume catches every failure
internally and returns None, the wrapper always receives a returned
value, never an exception. -/
def ai_analyze (parse : String → Option PyVal)
    (backend : Except String String) : PyVal :=
  ai_analyze_wrapper (Except.ok (analyze_resume parse backend))

/-- C1 counterexample: with the backend raising (forced network fault),
the composed diagnose returns the mock result, whose score is 82 (not
0) and which has no "error" key at all — refuting the claimed
score-0 / non-empty-error degraded result. -/
theorem C1_counterexample :
    ai_analyze (fun _ => Option.none) (Except.error "ConnectionError") = mock_result ∧
    scoreInt mock_result = Option.some 82 ∧
    scoreInt mock_result ≠ Option.some 0 ∧
    mock_result.lookup "error" = Option.none := by
  refine ⟨rfl, rfl, ?_, rfl⟩
  decide

/-- C1 amended: if the backend call raises, or its response fails to
parse as JSON, the composed diagnose returns a first-class value — but
it is the mock result (score 82, explanatory summary, no error field),
not a score-0 result with a non-empty error: analyze_resume catches
both faults internally and returns None, so the score-0/error branch
of the wrapper is never reached.  No fault propagates (the model
functions are total). -/
theorem C1_amended :
    (∀ (parse : String → Option PyVal) (e : String),
        ai_analyze parse (Except.error e) = mock_result) ∧
    (∀ (parse : String → Option PyVal) (raw : String),
        parse (clean_ai_response raw) = Option.none →
        ai_analyze parse (Except.ok raw) = mock_result) ∧
    mock_result.lookup "score" = Option.some (PyVal.int 82) ∧
    mock_result.lookup "summary" =
      Option.some (PyVal.str "这是一个可访问的 Demo 结果：核心流程可跑通，但 AI 诊断尚未接通或不可用。") ∧
    mock_result.lookup "error" = Option.none := by
  refine ⟨fun parse e => rfl, fun parse raw h => ?_, rfl, rfl, rfl⟩
  have hval : analyze_resume parse (Except.ok raw) = PyVal.none := by
    simp [analyze_resume, h]
  simp [ai_analyze, hval, ai_analyze_wrapper, PyVal.isDict]

/-- C1 witness: the amended theorem applied at a concrete unparseable
response. -/
theorem C1_witness :
    ai_analyze (fun _ => Option.none) (Except.ok "not a json object") = mock_result :=
  C1_amended.2.1 (fun _ => Option.none) "not a json object" rfl

/-- The page loop of resume_parser.extract_text_from_pdf: accumulate
each page's extracted text followed by "\n", skipping falsy (empty)
texts. -/
def pages_text (pages : List String) : String :=
  pages.foldl (fun full_text text =>
    if text ≠ "" then full_text ++ text ++ "\n" else full_text) ""

/-- resume_parser.extract_text_from_pdf: PdfReader(pdf_path) is the
black box `decode` (raised message, or the per-page extracted texts);
the loop adds nothing that can raise. -/
def extract_text_from_pdf (decode : Except String (List String)) :
    Except String String :=
  match decode with
  | Except.ok pages => Except.ok (pages_text pages)
  | Except.error e => Except.error e

/-- The identical inline page loop of app._extract_text_from_pdf
(present twice there, for the in-memory and for the path decode). -/
def app_pages_text (pages : List String) : String :=
  pages.foldl (fun full_text text =>
    if text ≠ "" then full_text ++ text ++ "\n" else full_text) ""

/-- Python `s or ""` for a string s (identity, since "" or "" is ""). -/
def py_or_empty (s : String) : String :=
  if s = "" then "" else s

/-- Branch 1 of app._extract_text_from_pdf (resume_parser importable,
as in this repository): try fn(uploaded_file); on an exception write
the bytes to a temp file and call fn(tmp_path).  `decode_file` /
`decode_path` are the PdfReader outcomes of the two calls on the same
bytes.  Note the second call is NOT inside a try: its fault
propagates. -/
def app_extract_via_module (decode_file decode_path : Except String (List String)) :
    Except String String :=
  match extract_text_from_pdf decode_file with
  | Except.ok s => Except.ok (py_or_empty s)
  | Except.error _ =>
      match extract_text_from_pdf decode_path with
      | Except.ok s => Except.ok (py_or_empty s)
      | Except.error e => Except.error e

/-- Branch 2 of app._extract_text_from_pdf (built-in pypdf fallback):
same shape, with the inline page loop and no `or ""`; the path-based
retry is again outside any try. -/
def app_extract_builtin (decode_mem decode_path : Except String (List String)) :
    Except String String :=
  match decode_mem with
  | Except.ok pages => Except.ok (app_pages_text pages)
  | Except.error _ =>
      match decode_path with
      | Except.ok pages => Except.ok (app_pages_text pages)
      | Except.error e => Except.error e

/-- The read step of app.main around _extract_text_from_pdf
(lines 189–196): try/except that surfaces the fault as a UI error and
stops, instead of crashing. -/
inductive ReadOutcome where
  | got (text : String)
  | failed (err : String)

/-- app.main's try/except around the extraction call. -/
def main_read_pdf (res : Except String String) : ReadOutcome :=
  match res with
  | Except.ok s => ReadOutcome.got s
  | Except.error e => ReadOutcome.failed e

/-- Shifting the accumulator out of the page-loop fold. -/
theorem pages_fold_shift (ps : List String) (a : String) :
    ps.foldl (fun full_text text =>
      if text ≠ "" then full_text ++ text ++ "\n" else full_text) a
    = a ++ ps.foldl (fun full_text text =>
      if text ≠ "" then full_text ++ text ++ "\n" else full_text) "" := by
  induction ps generalizing a with
  | nil => simp
  | cons p rest ih =>
    simp only [List.foldl_cons]
    rw [ih, ih (if p ≠ "" then "" ++ p ++ "\n" else "")]
    by_cases hp : p = "" <;> simp [hp, String.append_assoc]

/-- The C3 claim's own wording, as a definition: page texts
concatenated in page order SEPARATED by a single newline, text-less
pages contributing nothing. -/
def pages_text_sep (pages : List String) : String :=
  String.intercalate "\n" (pages.filter (fun t => t ≠ ""))

/-- The amended C3 wording, as a definition: page texts concatenated
in page order, each contributing page TERMINATED by a single newline,
text-less pages contributing nothing. -/
def pages_text_terminated : List String → String
  | [] => ""
  | p :: rest => (if p = "" then "" else p ++ "\n") ++ pages_text_terminated rest

/-- The source's left fold equals the newline-terminated
concatenation. -/
theorem pages_text_eq_terminated (pages : List String) :
    pages_text pages = pages_text_terminated pages := by
  induction pages with
  | nil => rfl
  | cons p rest ih =>
    show List.foldl _ _ (p :: rest) = _
    rw [List.foldl_cons, pages_fold_shift]
    by_cases hp : p = "" <;> simp [hp, pages_text_terminated, pages_text] at ih ⊢ <;>
      rw [ih]

/-- C3 counterexample: on a two-page document the extractor returns
"Page one\nPage two\n" — the pages are newline-terminated, which
differs from the claimed newline-separated concatenation
"Page one\nPage two". -/
theorem C3_counterexample :
    extract_text_from_pdf (Except.ok ["Page one", "Page two"])
      = Except.ok "Page one\nPage two\n" ∧
    pages_text_sep ["Page one", "Page two"] = "Page one\nPage two" ∧
    ("Page one\nPage two\n" : String) ≠ "Page one\nPage two" := by
  refine ⟨rfl, by decide, by decide⟩

/-- C3 amended: the extractor returns the page texts concatenated in
page order with each text-yielding page terminated (not merely
separated) by a single newline; pages yielding no text contribute
nothing, not even a blank line. -/
theorem C3_amended (pages : List String) :
    extract_text_from_pdf (Except.ok pages) = Except.ok (pages_text_terminated pages) := by
  show Except.ok (pages_text pages) = _
  rw [pages_text_eq_terminated]

/-- C4: when the in-memory decode raises and the bytes decode at a
path, both fallback branches of app._extract_text_from_pdf return
exactly the text of a direct path-based decode of the same bytes
(resume_parser.extract_text_from_pdf on the temp path), and the
app-inlined page loop agrees with resume_parser's. -/
theorem C4_fallback_equiv (em : String) (pages : List String) :
    app_extract_builtin (Except.error em) (Except.ok pages)
      = Except.ok (app_pages_text pages) ∧
    app_extract_via_module (Except.error em) (Except.ok pages)
      = Except.ok (pages_text pages) ∧
    extract_text_from_pdf (Except.ok pages) = Except.ok (pages_text pages) ∧
    app_pages_text pages = pages_text pages := by
  refine ⟨rfl, ?_, rfl, rfl⟩
  show Except.ok (py_or_empty (pages_text pages)) = Except.ok (pages_text pages)
  by_cases h : pages_text pages = "" <;> simp [py_or_empty, h]

/-- C2 counterexample: when both decode attempts raise, both branches
of app._extract_text_from_pdf propagate the second fault to their
caller instead of returning a flagged empty string. -/
theorem C2_counterexample :
    app_extract_via_module (Except.error "PdfReadError: in-memory stream")
        (Except.error "PdfReadError: EOF marker not found")
      = Except.error "PdfReadError: EOF marker not found" ∧
    app_extract_builtin (Except.error "PdfReadError: in-memory stream")
        (Except.error "PdfReadError: EOF marker not found")
      = Except.error "PdfReadError: EOF marker not found" :=
  ⟨rfl, rfl⟩

/-- C2 amended: when either extraction attempt succeeds (in either
branch of app._extract_text_from_pdf), the extractor returns the
decoded page text; but when both attempts fail it does not return an
empty string — it propagates the second attempt's fault to its caller;
the surrounding try/except in app.main catches that fault and surfaces
it as a read failure, so no raw fault escapes the overall pipeline. -/
theorem C2_amended (e1 e2 : String) (ps : List String)
    (d : Except String (List String)) :
    app_extract_via_module (Except.ok ps) d = Except.ok (pages_text ps) ∧
    app_extract_via_module (Except.error e1) (Except.ok ps) = Except.ok (pages_text ps) ∧
    app_extract_builtin (Except.ok ps) d = Except.ok (app_pages_text ps) ∧
    app_extract_builtin (Except.error e1) (Except.ok ps) = Except.ok (app_pages_text ps) ∧
    app_extract_via_module (Except.error e1) (Except.error e2) = Except.error e2 ∧
    app_extract_builtin (Except.error e1) (Except.error e2) = Except.error e2 ∧
    main_read_pdf (app_extract_via_module (Except.error e1) (Except.error e2))
      = ReadOutcome.failed e2 := by
  have hor : py_or_empty (pages_text ps) = pages_text ps := by
    by_cases h : pages_text ps = "" <;> simp [py_or_empty, h]
  refine ⟨?_, ?_, rfl, rfl, rfl, rfl, rfl⟩
  · show Except.ok (py_or_empty (pages_text ps)) = _
    rw [hor]
  · show Except.ok (py_or_empty (pages_text ps)) = _
    rw [hor]

/-- Newline-terminated concatenations are empty or end in a newline. -/
theorem pages_text_terminated_ends (pages : List String) :
    pages_text_terminated pages = "" ∨
    ∃ s, pages_text_terminated pages = s ++ "\n" := by
  induction pages with
  | nil => exact Or.inl rfl
  | cons p rest ih =>
    by_cases hp : p = ""
    · simpa [pages_text_terminated, hp] using ih
    · rcases ih with h | ⟨s, hs⟩
      · exact Or.inr ⟨p, by simp [pages_text_terminated, hp, h]⟩
      · exact Or.inr ⟨p ++ "\n" ++ s, by
          simp [pages_text_terminated, hp, hs, String.append_assoc]⟩

/-- C9: the extracted text is either empty or ends with a newline,
because every page that contributes text appends a trailing newline. -/
theorem C9_trailing_newline (pages : List String) :
    extract_text_from_pdf (Except.ok pages) = Except.ok "" ∨
    ∃ s, extract_text_from_pdf (Except.ok pages) = Except.ok (s ++ "\n") := by
  have hterm := pages_text_terminated_ends pages
  have heq : extract_text_from_pdf (Except.ok pages)
      = Except.ok (pages_text_terminated pages) := by
    show Except.ok (pages_text pages) = _
    rw [pages_text_eq_terminated]
  rcases hterm with h | ⟨s, hs⟩
  · exact Or.inl (by rw [heq, h])
  · exact Or.inr ⟨s, by rw [heq, hs]⟩

/-- dropWhile is idempotent. -/
theorem dropWhile_dropWhile_eq {α : Type} (p : α → Bool) (l : List α) :
    (l.dropWhile p).dropWhile p = l.dropWhile p := by
  induction l with
  | nil => rfl
  | cons a t ih =>
    rw [List.dropWhile_cons]
    split
    · exact ih
    · rw [List.dropWhile_cons_of_neg]
      assumption

/-- dropWhile never consumes a final element failing the predicate. -/
theorem dropWhile_append_singleton {α : Type} (p : α → Bool) (a : α)
    (h : p a = false) (xs : List α) :
    (xs ++ [a]).dropWhile p = xs.dropWhile p ++ [a] := by
  induction xs with
  | nil => simp [List.dropWhile_cons, h]
  | cons x t ih =>
    rw [List.cons_append, List.dropWhile_cons, List.dropWhile_cons]
    split <;> simp [ih]

/-- Both-ends whitespace stripping is idempotent. -/
theorem pyStrip_idem (s : String) : pyStrip (pyStrip s) = pyStrip s := by
  have key : ∀ m : List Char,
      (((((m.dropWhile isPySpace).reverse.dropWhile isPySpace).reverse.dropWhile
          isPySpace).reverse.dropWhile isPySpace).reverse)
        = ((m.dropWhile isPySpace).reverse.dropWhile isPySpace).reverse := by
    intro m
    cases hd : m.dropWhile isPySpace with
    | nil => simp
    | cons a t =>
      have h2 := List.head?_dropWhile_not isPySpace m
      rw [hd] at h2
      simp only [List.head?_cons] at h2
      have hrev : ((a :: t).reverse.dropWhile isPySpace).reverse
          = a :: (t.reverse.dropWhile isPySpace).reverse := by
        rw [List.reverse_cons, dropWhile_append_singleton isPySpace a h2]
        simp
      rw [hrev]
      rw [List.dropWhile_cons_of_neg (by simp [h2])]
      rw [List.reverse_cons, List.reverse_reverse,
        dropWhile_append_singleton isPySpace a h2,
        dropWhile_dropWhile_eq]
      simp
  exact congrArg String.mk (key s.data)

/-- A string holding a non-whitespace character does not strip to
empty. -/
theorem pyStrip_ne_empty (s : String) (c : Char) (hc : c ∈ s.data)
    (hns : isPySpace c = false) : pyStrip s ≠ "" := by
  intro h
  have h2 : ((s.data.dropWhile isPySpace).reverse.dropWhile isPySpace).reverse
      = ([] : List Char) := congrArg String.data h
  rw [List.reverse_eq_nil_iff, List.dropWhile_eq_nil_iff] at h2
  have hc2 : c ∈ s.data.dropWhile isPySpace := by
    have hsplit := List.takeWhile_append_dropWhile (p := isPySpace) (l := s.data)
    rw [← hsplit] at hc
    rcases List.mem_append.mp hc with h3 | h3
    · exact absurd (List.mem_takeWhile_imp h3) (by simp [hns])
    · exact h3
  have := h2 c (List.mem_reverse.mpr hc2)
  rw [hns] at this
  exact Bool.false_ne_true this

/-- The fixed Demo Markdown document returned at the bottom of
app._ai_generate_resume_markdown (note the trailing newline). -/
def demo_markdown : String :=
  "# 优化版简历（Demo）\n\n" ++
  "## 基本信息\n- 姓名：你的名字\n- 邮箱：you@example.com\n- 电话：138-xxxx-xxxx\n\n" ++
  "## 技能\n- Python / FastAPI / MySQL\n- Vue3 / Element Plus\n\n" ++
  "## 项目经历（示例）\n- 使用 STAR 法则描述项目背景、任务、行动与结果。\n"

/-- ai_advisor.generate_resume_markdown: the chat-completion call is
the black box `backend` (raised message, or the returned message
content); on success the content is stripped and returned; on any
exception the fixed failure text with str(e) appended is returned, so
the function itself never raises. -/
def generate_resume_markdown (backend : Except String String) : String :=
  match backend with
  | Except.ok content => pyStrip content
  | Except.error e => "AI 生成服务暂时不可用: " ++ e

/-- The failure Markdown built in app._ai_generate_resume_markdown's
except branch. -/
def gen_fail_markdown (e : String) : String :=
  "# 生成失败（Demo）\n\n- 错误信息：" ++ e ++ "\n\n请检查 AI 配置与依赖。"

/-- app._ai_generate_resume_markdown around the call to
ai_advisor.generate_resume_markdown (module importable): a returned
non-blank string is stripped and passed through; a raised exception
yields the failure Markdown; anything else (non-string, blank string)
falls through to the Demo document. -/
def ai_generate_wrapper (call : Except String PyVal) : String :=
  match call with
  | Except.error e => gen_fail_markdown e
  | Except.ok (PyVal.str s) => if pyStrip s ≠ "" then pyStrip s else demo_markdown
  | Except.ok _ => demo_markdown

/-- The composed generation pipeline app._ai_generate_resume_markdown ∘
ai_advisor.generate_resume_markdown.  Since generate_resume_markdown
catches every failure internally and returns a string, the wrapper
always receives a returned string. -/
def ai_generate_resume_markdown (backend : Except String String) : String :=
  ai_generate_wrapper (Except.ok (PyVal.str (generate_resume_markdown backend)))

/-- C10: if the call the wrapper makes succeeds but yields a
non-string, or a string that strips to empty, the wrapper silently
substitutes the fixed Demo Markdown document. -/
theorem C10_demo_substitution :
    (∀ s : String, pyStrip s = "" →
        ai_generate_wrapper (Except.ok (PyVal.str s)) = demo_markdown) ∧
    (∀ n : Int, ai_generate_wrapper (Except.ok (PyVal.int n)) = demo_markdown) ∧
    (∀ xs, ai_generate_wrapper (Except.ok (PyVal.list xs)) = demo_markdown) ∧
    (∀ kvs, ai_generate_wrapper (Except.ok (PyVal.dict kvs)) = demo_markdown) ∧
    ai_generate_wrapper (Except.ok PyVal.none) = demo_markdown := by
  refine ⟨fun s h => ?_, fun n => rfl, fun xs => rfl, fun kvs => rfl, rfl⟩
  simp [ai_generate_wrapper, h]

/-- C10 witness: a whitespace-only returned string yields the Demo
document. -/
theorem C10_witness :
    ai_generate_wrapper (Except.ok (PyVal.str " \n ")) = demo_markdown :=
  C10_demo_substitution.1 " \n " (by decide)

/-- C5 counterexample: a backend success whose content is whitespace
only makes the composed generation return the Demo document, which
ends with a newline and is therefore not a trimmed string — refuting
"always returns a trimmed string". -/
theorem C5_counterexample :
    ai_generate_resume_markdown (Except.ok "   ") = demo_markdown ∧
    pyStrip demo_markdown ++ "\n" = demo_markdown ∧
    demo_markdown ≠ pyStrip demo_markdown := by
  refine ⟨rfl, ?_, ?_⟩
  · set_option maxRecDepth 20000 in decide
  · set_option maxRecDepth 20000 in decide

/-- C5 amended: the composed generation returns the trimmed content on
a success with non-blank content, and on failure a trimmed short text
stating the generation service is unavailable with the failure reason
appended; but on a success with blank (empty or whitespace-only)
content it returns the fixed Demo document, which carries a trailing
newline and is not trimmed. -/
theorem C5_amended :
    (∀ s : String, pyStrip s ≠ "" →
        ai_generate_resume_markdown (Except.ok s) = pyStrip s) ∧
    (∀ e : String, ai_generate_resume_markdown (Except.error e)
        = pyStrip ("AI 生成服务暂时不可用: " ++ e)) ∧
    (∀ s : String, pyStrip s = "" →
        ai_generate_resume_markdown (Except.ok s) = demo_markdown) := by
  refine ⟨fun s h => ?_, fun e => ?_, fun s h => ?_⟩
  · simp [ai_generate_resume_markdown, generate_resume_markdown,
      ai_generate_wrapper, pyStrip_idem, h]
  · have hne : pyStrip ("AI 生成服务暂时不可用: " ++ e) ≠ "" := by
      refine pyStrip_ne_empty _ 'A' ?_ (by decide)
      rw [String.data_append]
      exact List.mem_append_left _ (by decide)
    simp [ai_generate_resume_markdown, generate_resume_markdown,
      ai_generate_wrapper, hne]
  · have h0 : pyStrip ("" : String) = "" := rfl
    simp [ai_generate_resume_markdown, generate_resume_markdown,
      ai_generate_wrapper, h, h0]

/-- C5 witness: the amended theorem applied at a concrete non-blank
completion. -/
theorem C5_witness :
    ai_generate_resume_markdown (Except.ok "hello") = "hello" :=
  Eq.trans (C5_amended.1 "hello" (by decide)) (by decide)

/-- The display schema app.main reads off the analysis dict with
defaults (lines 212–248): score, summary, suggestions, matched_jobs. -/
structure DisplayModel where
  score : PyVal
  summary : PyVal
  suggestions : PyVal
  matched_jobs : PyVal

/-- app.main's normalization of the analysis dict: the four
analysis_result.get(...) calls with their literal defaults. -/
def main_normalize (d : List (String × PyVal)) : DisplayModel :=
  { score := dict_get d "score" (PyVal.int 0),
    summary := dict_get d "summary" (PyVal.str "暂无点评"),
    suggestions := dict_get d "suggestions" (PyVal.list []),
    matched_jobs := dict_get d "matched_jobs" (PyVal.list []) }

/-- C6: normalize is total over any dict shape; each missing field
gets its documented default (score 0, placeholder summary, empty
suggestions and matched_jobs), and a present score passes through. -/
theorem C6_normalize_defaults (d : List (String × PyVal)) :
    (dict_find d "score" = Option.none → (main_normalize d).score = PyVal.int 0) ∧
    (dict_find d "summary" = Option.none →
        (main_normalize d).summary = PyVal.str "暂无点评") ∧
    (dict_find d "suggestions" = Option.none →
        (main_normalize d).suggestions = PyVal.list []) ∧
    (dict_find d "matched_jobs" = Option.none →
        (main_normalize d).matched_jobs = PyVal.list []) ∧
    (∀ v, dict_find d "score" = Option.some v → (main_normalize d).score = v) := by
  refine ⟨fun h => ?_, fun h => ?_, fun h => ?_, fun h => ?_, fun v h => ?_⟩ <;>
    simp [main_normalize, dict_get, h]

/-- C6 witness: a candidate missing every field normalizes to all four
documented defaults. -/
theorem C6_witness :
    (main_normalize []).score = PyVal.int 0 ∧
    (main_normalize []).summary = PyVal.str "暂无点评" ∧
    (main_normalize []).suggestions = PyVal.list [] ∧
    (main_normalize []).matched_jobs = PyVal.list [] :=
  ⟨(C6_normalize_defaults []).1 rfl, (C6_normalize_defaults []).2.1 rfl,
   (C6_normalize_defaults []).2.2.1 rfl, (C6_normalize_defaults []).2.2.2.1 rfl⟩

/-- How app.main renders one suggestion entry (lines 224–239): a dict
is shown as advice + evidence (with literal defaults for missing
keys), anything else as one undifferentiated written line. -/
inductive RenderedSuggestion where
  | structured (advice evidence : PyVal)
  | plain (item : PyVal)

/-- app.main's per-entry suggestion rendering. -/
def render_suggestion (item : PyVal) : RenderedSuggestion :=
  match item with
  | PyVal.dict kvs =>
      RenderedSuggestion.structured (dict_get kvs "advice" (PyVal.str "无建议内容"))
        (dict_get kvs "evidence" (PyVal.str "暂无定位"))
  | other => RenderedSuggestion.plain other

/-- app.main's rendering of the whole suggestions list. -/
def render_suggestions (items : List PyVal) : List RenderedSuggestion :=
  items.map render_suggestion

/-- C7: a pair-shaped entry is rendered with its advice and evidence
distinctly (falling back to the literal defaults when a key is
missing), a bare-string entry is rendered as a single plain line, and
the rendering is a total function (no shape can raise). -/
theorem C7_suggestion_shapes (item : PyVal) :
    (∀ kvs, item = PyVal.dict kvs →
        dict_find kvs "advice" = Option.none →
        dict_find kvs "evidence" = Option.none →
        render_suggestion item
          = RenderedSuggestion.structured (PyVal.str "无建议内容") (PyVal.str "暂无定位")) ∧
    (∀ kvs a b, item = PyVal.dict kvs →
        dict_find kvs "advice" = Option.some a →
        dict_find kvs "evidence" = Option.some b →
        render_suggestion item = RenderedSuggestion.structured a b) ∧
    (∀ s, item = PyVal.str s →
        render_suggestion item = RenderedSuggestion.plain (PyVal.str s)) := by
  refine ⟨fun kvs hi ha he => ?_, fun kvs a b hi ha he => ?_, fun s hi => ?_⟩
  · subst hi
    simp [render_suggestion, dict_get, ha, he]
  · subst hi
    simp [render_suggestion, dict_get, ha, he]
  · subst hi
    simp [render_suggestion]

/-- C7 witness: both shapes at concrete inputs — an empty dict gets
both defaults, a bare string stays a plain line. -/
theorem C7_witness :
    render_suggestion (PyVal.dict [])
      = RenderedSuggestion.structured (PyVal.str "无建议内容") (PyVal.str "暂无定位") ∧
    render_suggestion (PyVal.str "补充量化指标")
      = RenderedSuggestion.plain (PyVal.str "补充量化指标") :=
  ⟨(C7_suggestion_shapes (PyVal.dict [])).1 [] rfl rfl rfl,
   (C7_suggestion_shapes (PyVal.str "补充量化指标")).2.2 "补充量化指标" rfl⟩

/-- Python s[:n]: the first n code points of s. -/
def pySlice (s : String) (n : Nat) : String :=
  String.mk (s.data.take n)

/-- The rewrite prompt f-string built in app.main (lines 256–269):
resume_text truncated to 2000 characters, then the suggestions encoded
as JSON (the json.dumps output is the black-box `suggestions_json`). -/
def build_prompt (resume_text suggestions_json : String) : String :=
  "\n请根据以下原始简历内容和修改建议，重写一份优化后的简历。\n\n【原始简历】：\n"
  ++ pySlice resume_text 2000
  ++ "\n\n【修改建议】：\n"
  ++ suggestions_json
  ++ "\n\n要求：\n1. 使用标准 Markdown 格式。\n2. 针对建议点进行具体修改。\n3. 优化语言表达，使其更专业。\n"

/-- C8: the generation user prompt contains the original text
truncated to at most its first 2000 characters (a leading fragment of
the text, of length at most 2000) together with the JSON-encoded prior
suggestions. -/
theorem C8_prompt_contents (t j : String) :
    (∃ pre post, (build_prompt t j).data
        = pre ++ (pySlice t 2000).data ++ post) ∧
    (∃ pre post, (build_prompt t j).data = pre ++ j.data ++ post) ∧
    (∃ rest, t.data = (pySlice t 2000).data ++ rest) ∧
    (pySlice t 2000).length ≤ 2000 := by
  refine ⟨?_, ?_, ⟨t.data.drop 2000, ?_⟩, ?_⟩
  · exact ⟨("\n请根据以下原始简历内容和修改建议，重写一份优化后的简历。\n\n【原始简历】：\n" : String).data,
      ("\n\n【修改建议】：\n" ++ j
        ++ "\n\n要求：\n1. 使用标准 Markdown 格式。\n2. 针对建议点进行具体修改。\n3. 优化语言表达，使其更专业。\n" : String).data,
      by simp [build_prompt, List.append_assoc]⟩
  · exact ⟨("\n请根据以下原始简历内容和修改建议，重写一份优化后的简历。\n\n【原始简历】：\n" : String).data
        ++ (pySlice t 2000).data ++ ("\n\n【修改建议】：\n" : String).data,
      ("\n\n要求：\n1. 使用标准 Markdown 格式。\n2. 针对建议点进行具体修改。\n3. 优化语言表达，使其更专业。\n" : String).data,
      by simp [build_prompt, List.append_assoc]⟩
  · exact (List.take_append_drop 2000 t.data).symm
  · simp only [pySlice, String.length_mk]
    exact List.length_take_le 2000 t.data
